import Mathlib

/-!
Verification of the tool-calling orchestration in `src/app.py`.

The program has two functions of interest:

* `web_search(query)`: queries the DuckDuckGo search library (`ddgs.text(query,
  max_results=3)`), formats up to three results as `"Title: <title>\nSnippet:
  <body>"` blocks joined by newlines, returns `"No results found."` on an empty
  result list, and converts any exception into the string
  `"An error occurred during search: <e>"`.

* `get_answer(question)`: sends the question to a chat-completion endpoint with
  one declared tool (`web_search`), branches on whether the first response
  carries tool calls, optionally performs one search round-trip followed by a
  second completion request, and converts any exception into the string
  `"An error occurred while communicating with the LLM: <e>"`.

The external world (the chat endpoint, the search provider, and `json.loads`)
is modelled as an `Env` of oracles.  Each oracle yields `Except String α`:
`.error e` models the library call raising an exception whose `str` is `e`.
Both functions additionally return the list of external calls they performed
(an `Event` trace), so that "exactly one search call" style properties are
statable.  Python's `None` (which is also what `json.loads` produces for a
JSON `null`, and what `dict.get` returns for a missing key) is modelled as
`Json.null`.
-/

/-- The model identifier, `LLM_MODEL = "qwen3:8b"` in the source. -/
def LLM_MODEL : String := "qwen3:8b"

/-- Values produced by `json.loads`.  JSON numbers are modelled as integers;
no claim involves numeric arguments. -/
inductive Json where
  | null
  | bool (b : Bool)
  | num (n : Int)
  | str (s : String)
  | arr (elems : List Json)
  | obj (entries : List (String × Json))

/-- `d.get(key)` on the decoded arguments: returns the entry when present,
Python `None` (modelled `Json.null`) when the key is missing, and raises
(`AttributeError`) when the decoded value is not a dict. -/
def Json.pyGet : Json → String → Except String Json
  | .obj entries, key =>
      match entries.lookup key with
      | some v => .ok v
      | none => .ok .null
  | _, _ => .error "object has no attribute \x27get\x27"

/-- One result object from `ddgs.text`: a dict with `title` and `body`. -/
structure SearchResult where
  title : String
  body : String
deriving DecidableEq

/-- `tool_call.function`: a name and a raw JSON argument string. -/
structure ToolFunction where
  name : String
  arguments : String
deriving DecidableEq

/-- One tool invocation request from the model. -/
structure ToolCall where
  id : String
  function : ToolFunction
deriving DecidableEq

/-- A chat message returned by the model: its text content and its
tool-call list (`None` from the API is modelled as `[]`, matching the
falsiness test `if tool_calls:` in the source). -/
structure ChatMessage where
  content : String
  tool_calls : List ToolCall
deriving DecidableEq

/-- One entry of `response.choices`. -/
structure Choice where
  message : ChatMessage
deriving DecidableEq

/-- A chat-completion response. -/
structure ChatResponse where
  choices : List Choice
deriving DecidableEq

/-- A conversation turn as built by `get_answer`: the initial user dict, the
assistant message object appended verbatim, or the tool-result dict. -/
inductive Message where
  | user (content : String)
  | assistant (message : ChatMessage)
  | tool (tool_call_id : String) (name : String) (content : String)
deriving DecidableEq

/-- One property entry of the declared JSON-schema parameters. -/
structure PropertySchema where
  type : String
  description : String
deriving DecidableEq

/-- The `parameters` JSON schema of the declared tool. -/
structure ParametersSchema where
  type : String
  properties : List (String × PropertySchema)
  required : List String
deriving DecidableEq

/-- The `function` part of a tool declaration. -/
structure FunctionDecl where
  name : String
  description : String
  parameters : ParametersSchema
deriving DecidableEq

/-- One entry of the `tools` array passed to the first completion call. -/
structure ToolDecl where
  type : String
  function : FunctionDecl
deriving DecidableEq

/-- The single tool declaration built at the top of `get_answer`. -/
def webSearchTool : ToolDecl :=
  { type := "function"
    function :=
      { name := "web_search"
        description := "Search the web for recent information or topics the model doesn\x27t know about."
        parameters :=
          { type := "object"
            properties := [("query", { type := "string", description := "The search query to use." })]
            required := ["query"] } } }

/-- An external call performed by the program: a chat-completion request
(with its message list, optional tool declarations and optional tool_choice),
or a `ddgs.text(query, max_results)` search call. -/
inductive Event where
  | llmRequest (model : String) (messages : List Message)
      (tools : Option (List ToolDecl)) (tool_choice : Option String)
  | searchCall (query : Json) (max_results : Nat)

/-- The external world.  `ddgsText q` is the provider's full result stream for
query `q` (the call with `max_results=3` takes its first three elements);
`jsonLoads` is Python's `json.loads`; `llm1`/`llm2` are the endpoint's
responses to the first and (at most one) second completion request of one
`get_answer` call.  `.error e` models the call raising an exception. -/
structure Env where
  ddgsText : Json → Except String (List SearchResult)
  jsonLoads : String → Except String Json
  llm1 : Except String ChatResponse
  llm2 : Except String ChatResponse

/-- `f"Title: {r['title']}\nSnippet: {r['body']}"` in `web_search`. -/
def formatResult (r : SearchResult) : String :=
  "Title: " ++ r.title ++ "\nSnippet: " ++ r.body

/-- Python's `"\n".join(...)`. -/
def joinNl : List String → String
  | [] => ""
  | [s] => s
  | s :: rest => s ++ "\n" ++ joinNl rest

/-- The string computed by `web_search` (source lines 31-43): the formatted
digest of at most three results, `"No results found."` on an empty list, or
the search-error string when the provider raises. -/
def web_search_result (env : Env) (query : Json) : String :=
  match env.ddgsText query with
  | .error e => "An error occurred during search: " ++ e
  | .ok stream =>
      let results := stream.take 3
      if results.isEmpty then "No results found."
      else joinNl (results.map formatResult)

/-- `web_search` together with its externally observable call trace: it
performs exactly one `ddgs.text(query, max_results=3)` call. -/
def web_search (env : Env) (query : Json) : String × List Event :=
  (web_search_result env query, [Event.searchCall query 3])

/-- Python `xs[0]`: raises `IndexError` on an empty list. -/
def listIndex0 {α : Type} : List α → Except String α
  | [] => .error "list index out of range"
  | x :: _ => .ok x

/-- The catch-all conversion of `get_answer`:
`f"An error occurred while communicating with the LLM: {e}"`. -/
def llmErrorString (e : String) : String :=
  "An error occurred while communicating with the LLM: " ++ e

/-- `f"Error: LLM tried to call unknown function '{function_name}'."`. -/
def unknownFunctionString (functionName : String) : String :=
  "Error: LLM tried to call unknown function \x27" ++ functionName ++ "\x27."

/-- The event of the first completion request of `get_answer`: the
one-message conversation, the one declared tool, and `tool_choice="auto"`. -/
def firstRequestEvent (question : String) : Event :=
  Event.llmRequest LLM_MODEL [Message.user question] (some [webSearchTool]) (some "auto")

/-- The body of `get_answer`'s `try` block (source lines 83-134), mirrored
step by step, paired with the trace of external calls made so far.  An
`.error` result is what the `except` clause catches. -/
def get_answer_run (env : Env) (question : String) : Except String String × List Event :=
  match env.llm1 with
  | .error e => (.error e, [firstRequestEvent question])
  | .ok response =>
    match listIndex0 response.choices with
    | .error e => (.error e, [firstRequestEvent question])
    | .ok choice0 =>
      let response_message := choice0.message
      match response_message.tool_calls with
      | [] => (.ok response_message.content, [firstRequestEvent question])
      | tool_call :: _ =>
        let function_name := tool_call.function.name
        match env.jsonLoads tool_call.function.arguments with
        | .error e => (.error e, [firstRequestEvent question])
        | .ok function_args =>
          if function_name = "web_search" then
            match function_args.pyGet "query" with
            | .error e => (.error e, [firstRequestEvent question])
            | .ok queryArg =>
              let searchOut := web_search env queryArg
              let finalMessages : List Message :=
                [Message.user question, Message.assistant response_message,
                 Message.tool tool_call.id function_name searchOut.1]
              let secondEvent : Event := Event.llmRequest LLM_MODEL finalMessages none none
              match env.llm2 with
              | .error e => (.error e, [firstRequestEvent question] ++ searchOut.2 ++ [secondEvent])
              | .ok final_response =>
                match listIndex0 final_response.choices with
                | .error e => (.error e, [firstRequestEvent question] ++ searchOut.2 ++ [secondEvent])
                | .ok fchoice =>
                  (.ok fchoice.message.content,
                   [firstRequestEvent question] ++ searchOut.2 ++ [secondEvent])
          else
            (.ok (unknownFunctionString function_name), [firstRequestEvent question])

/-- `get_answer` (source lines 45-138): the `try` body with the `except`
clause converting any raised exception into `llmErrorString`. -/
def get_answer (env : Env) (question : String) : String × List Event :=
  match get_answer_run env question with
  | (.ok answer, events) => (answer, events)
  | (.error e, events) => (llmErrorString e, events)

/-- Recognizes a `ddgs.text` search call in a trace. -/
def isSearchEvent : Event → Bool
  | .searchCall _ _ => true
  | _ => false

/-- Recognizes a completion request that declares no tools (only the
follow-up request after a tool round-trip has this shape). -/
def isToollessRequest : Event → Bool
  | .llmRequest _ _ none _ => true
  | _ => false

/-- `startsWithChars p l` : `p` is a prefix of `l` (over characters). -/
def startsWithChars : List Char → List Char → Bool
  | [], _ => true
  | _ :: _, [] => false
  | p :: ps, c :: cs => p = c && startsWithChars ps cs

/-- `containsChars l p` : `p` occurs as a contiguous run inside `l`. -/
def containsChars : List Char → List Char → Bool
  | [], pat => startsWithChars pat []
  | c :: rest, pat => startsWithChars pat (c :: rest) || containsChars rest pat

/-- `strContains s pat` : `pat` occurs as a substring of `s`. -/
def strContains (s pat : String) : Bool :=
  containsChars s.data pat.data

/-- The lines of a character list, splitting at every newline character. -/
def splitLinesChars : List Char → List (List Char)
  | [] => [[]]
  | c :: rest =>
      if c = '\n' then [] :: splitLinesChars rest
      else
        match splitLinesChars rest with
        | [] => [[c]]
        | l :: ls => (c :: l) :: ls

/-- A line that begins with `"Title: "`. -/
def isTitleLine (l : List Char) : Bool :=
  startsWithChars ("Title: ").data l

/-- How many lines of `s` begin with `"Title: "`. -/
def titleLineCount (s : String) : Nat :=
  ((splitLinesChars s.data).filter isTitleLine).length

/-- The character-list form of `formatResult r`, right-associated. -/
def fmtData (r : SearchResult) : List Char :=
  ("Title: ").data ++ (r.title.data ++ ('\n' :: (("Snippet: ").data ++ r.body.data)))

/-- `joinNl` over character lists. -/
def joinNlData : List (List Char) → List Char
  | [] => []
  | [x] => x
  | x :: rest => x ++ '\n' :: joinNlData rest

/-- Environment for the `C1` witness: the model first requests `web_search`
with the literal query `"Gemini model news"`, then answers from the results. -/
def c1WitnessEnv : Env :=
  { ddgsText := fun _ => .ok [⟨"Gemini update", "A new Gemini model was released."⟩]
    jsonLoads := fun _ => .ok (.obj [("query", .str "Gemini model news")])
    llm1 := .ok ⟨[⟨⟨"", [⟨"call_1", ⟨"web_search", "\x7b\"query\": \"Gemini model news\"\x7d"⟩⟩]⟩⟩]⟩
    llm2 := .ok ⟨[⟨⟨"Here is the latest Gemini model news.", []⟩⟩]⟩ }

/-- Environment for the `C2` witness: the model answers directly. -/
def c2WitnessEnv : Env :=
  { ddgsText := fun _ => .error "unused"
    jsonLoads := fun _ => .error "unused"
    llm1 := .ok ⟨[⟨⟨"Paris is the capital of France.", []⟩⟩]⟩
    llm2 := .error "unused" }

/-- Environment for the `C3` counterexample: the first response requests the
tool `"unsupported_tool"` with arguments `"{"` that are not valid JSON, so
`json.loads` raises before the tool name is ever inspected. -/
def c3CexEnv : Env :=
  { ddgsText := fun _ => .error "unused"
    jsonLoads := fun _ => .error "Expecting value: line 1 column 1 (char 0)"
    llm1 := .ok ⟨[⟨⟨"", [⟨"call_1", ⟨"unsupported_tool", "\x7b"⟩⟩]⟩⟩]⟩
    llm2 := .error "unused" }

/-- Environment for the `C3` witness: an unknown tool with well-formed
JSON arguments. -/
def c3WitnessEnv : Env :=
  { ddgsText := fun _ => .error "unused"
    jsonLoads := fun _ => .ok (.obj [("x", .num 1)])
    llm1 := .ok ⟨[⟨⟨"", [⟨"call_1", ⟨"unsupported_tool", "\x7b\"x\": 1\x7d"⟩⟩]⟩⟩]⟩
    llm2 := .error "unused" }

/-- Environment for the `C4` witness: a response carrying two tool calls. -/
def c4WitnessEnv : Env :=
  { ddgsText := fun _ => .ok [⟨"T1", "B1"⟩]
    jsonLoads := fun _ => .ok (.obj [("query", .str "first query")])
    llm1 := .ok ⟨[⟨⟨"",
      [⟨"call_1", ⟨"web_search", "\x7b\"query\": \"first query\"\x7d"⟩⟩,
       ⟨"call_2", ⟨"web_search", "\x7b\"query\": \"second query\"\x7d"⟩⟩]⟩⟩]⟩
    llm2 := .ok ⟨[⟨⟨"Answer using the first search only.", []⟩⟩]⟩ }

/-- Environment for the `C5` witness: the provider yields no results. -/
def c5WitnessEnv : Env :=
  { ddgsText := fun _ => .ok []
    jsonLoads := fun _ => .error "unused"
    llm1 := .error "unused"
    llm2 := .error "unused" }

/-- Four newline-free provider results, for the `C6` witness. -/
def c6WitnessResults : List SearchResult :=
  [⟨"A", "alpha"⟩, ⟨"B", "beta"⟩, ⟨"C", "gamma"⟩, ⟨"D", "delta"⟩]

/-- Environment for the `C6` witness. -/
def c6WitnessEnv : Env :=
  { ddgsText := fun _ => .ok c6WitnessResults
    jsonLoads := fun _ => .error "unused"
    llm1 := .error "unused"
    llm2 := .error "unused" }

/-- Environment for the `C6` counterexample: a single result whose snippet
contains an embedded newline followed by `"Title: "`. -/
def c6CexEnv : Env :=
  { ddgsText := fun _ => .ok [⟨"T", "B\nTitle: sneaky"⟩]
    jsonLoads := fun _ => .error "unused"
    llm1 := .error "unused"
    llm2 := .error "unused" }

/-- Environment for the `C8` witness: the first completion call raises. -/
def c8WitnessEnv : Env :=
  { ddgsText := fun _ => .error "unused"
    jsonLoads := fun _ => .error "unused"
    llm1 := .error "Connection refused"
    llm2 := .error "unused" }

/-- Environment for the `C9` witness: the supported tool is requested with
arguments that are not valid JSON. -/
def c9WitnessEnv : Env :=
  { ddgsText := fun _ => .error "unused"
    jsonLoads := fun _ => .error "Expecting value: line 1 column 1 (char 0)"
    llm1 := .ok ⟨[⟨⟨"", [⟨"call_1", ⟨"web_search", "not json"⟩⟩]⟩⟩]⟩
    llm2 := .error "unused" }

/-- Environment for the `C10` witness: the supported tool is requested with
a JSON object argument that lacks the `"query"` key. -/
def c10WitnessEnv : Env :=
  { ddgsText := fun _ => .error "no results for a null query"
    jsonLoads := fun _ => .ok (.obj [("q", .str "typo key")])
    llm1 := .ok ⟨[⟨⟨"", [⟨"call_1", ⟨"web_search", "\x7b\"q\": \"typo key\"\x7d"⟩⟩]⟩⟩]⟩
    llm2 := .ok ⟨[⟨⟨"Answer after a null-query search.", []⟩⟩]⟩ }

/-! ### Helper lemmas -/

lemma isTitleLine_title (t : List Char) : isTitleLine (("Title: ").data ++ t) = true := rfl

lemma isTitleLine_snip (b : List Char) : isTitleLine (("Snippet: ").data ++ b) = false := rfl

lemma splitLinesChars_append_nl (xs ys : List Char) (h : '\n' ∉ xs) :
    splitLinesChars (xs ++ '\n' :: ys) = xs :: splitLinesChars ys := by
  induction xs with
  | nil => simp [splitLinesChars]
  | cons x xs ih =>
    have hx : x ≠ '\n' := fun hh => h (hh ▸ List.mem_cons_self x xs)
    have hxs : '\n' ∉ xs := fun hm => h (List.mem_cons_of_mem _ hm)
    simp [splitLinesChars, hx, ih hxs]

lemma splitLinesChars_no_nl (xs : List Char) (h : '\n' ∉ xs) :
    splitLinesChars xs = [xs] := by
  induction xs with
  | nil => rfl
  | cons x xs ih =>
    have hx : x ≠ '\n' := fun hh => h (hh ▸ List.mem_cons_self x xs)
    have hxs : '\n' ∉ xs := fun hm => h (List.mem_cons_of_mem _ hm)
    simp [splitLinesChars, hx, ih hxs]

lemma splitLines_title_block (t ys : List Char) (h : '\n' ∉ t) :
    splitLinesChars (("Title: ").data ++ (t ++ ('\n' :: ys))) =
      (("Title: ").data ++ t) :: splitLinesChars ys := by
  rw [show ("Title: ").data ++ (t ++ ('\n' :: ys)) = (("Title: ").data ++ t) ++ ('\n' :: ys) by
    rw [List.append_assoc]]
  apply splitLinesChars_append_nl
  intro hm
  rcases List.mem_append.mp hm with hm | hm
  · revert hm; decide
  · exact h hm

lemma splitLines_snip_block (b ys : List Char) (h : '\n' ∉ b) :
    splitLinesChars (("Snippet: ").data ++ (b ++ ('\n' :: ys))) =
      (("Snippet: ").data ++ b) :: splitLinesChars ys := by
  rw [show ("Snippet: ").data ++ (b ++ ('\n' :: ys)) = (("Snippet: ").data ++ b) ++ ('\n' :: ys) by
    rw [List.append_assoc]]
  apply splitLinesChars_append_nl
  intro hm
  rcases List.mem_append.mp hm with hm | hm
  · revert hm; decide
  · exact h hm

lemma splitLines_snip_last (b : List Char) (h : '\n' ∉ b) :
    splitLinesChars (("Snippet: ").data ++ b) = [("Snippet: ").data ++ b] := by
  apply splitLinesChars_no_nl
  intro hm
  rcases List.mem_append.mp hm with hm | hm
  · revert hm; decide
  · exact h hm

lemma joinNl_data (l : List String) : (joinNl l).data = joinNlData (l.map String.data) := by
  induction l with
  | nil => rfl
  | cons s rest ih =>
    cases rest with
    | nil => rfl
    | cons s2 rest2 =>
      show ((s ++ "\n") ++ joinNl (s2 :: rest2)).data = s.data ++ '\n' :: joinNlData _
      rw [String.data_append, String.data_append, ih]
      simp

lemma fmt_data (r : SearchResult) : (formatResult r).data = fmtData r := by
  simp [formatResult, fmtData, String.data_append]

lemma fmtData_append_nl (r : SearchResult) (X : List Char) :
    fmtData r ++ '\n' :: X =
      ("Title: ").data ++ (r.title.data ++ ('\n' ::
        (("Snippet: ").data ++ (r.body.data ++ ('\n' :: X))))) := by
  simp [fmtData, List.append_assoc]

lemma titleCount_aux (l : List SearchResult) (hne : l ≠ [])
    (h : ∀ r ∈ l, '\n' ∉ r.title.data ∧ '\n' ∉ r.body.data) :
    (List.filter isTitleLine (splitLinesChars (joinNlData (l.map fmtData)))).length
      = l.length := by
  induction l with
  | nil => exact absurd rfl hne
  | cons r tail ih =>
    obtain ⟨ht, hb⟩ := h r (List.mem_cons_self r tail)
    cases tail with
    | nil =>
      show (List.filter isTitleLine (splitLinesChars (fmtData r))).length = 1
      rw [fmtData]
      rw [splitLines_title_block _ _ ht, splitLines_snip_last _ hb]
      rw [List.filter_cons_of_pos (isTitleLine_title _),
        List.filter_cons_of_neg (by rw [isTitleLine_snip]; exact Bool.false_ne_true)]
      rfl
    | cons r2 tail2 =>
      have h' : ∀ x ∈ r2 :: tail2, '\n' ∉ x.title.data ∧ '\n' ∉ x.body.data :=
        fun x hx => h x (List.mem_cons_of_mem _ hx)
      have ihr := ih (List.cons_ne_nil r2 tail2) h'
      show (List.filter isTitleLine
        (splitLinesChars (fmtData r ++ '\n' :: joinNlData ((r2 :: tail2).map fmtData)))).length
          = (r :: r2 :: tail2).length
      rw [fmtData_append_nl]
      rw [splitLines_title_block _ _ ht, splitLines_snip_block _ _ hb]
      rw [List.filter_cons_of_pos (isTitleLine_title _),
        List.filter_cons_of_neg (by rw [isTitleLine_snip]; exact Bool.false_ne_true)]
      rw [List.length_cons, ihr]
      rfl

lemma titleCount_join (l : List SearchResult) (hne : l ≠ [])
    (h : ∀ r ∈ l, '\n' ∉ r.title.data ∧ '\n' ∉ r.body.data) :
    titleLineCount (joinNl (l.map formatResult)) = l.length := by
  unfold titleLineCount
  rw [joinNl_data, List.map_map]
  rw [show String.data ∘ formatResult = fmtData from funext fmt_data]
  exact titleCount_aux l hne h

lemma startsWithChars_append_self (p t : List Char) : startsWithChars p (p ++ t) = true := by
  induction p with
  | nil => rfl
  | cons c cs ih => simp [startsWithChars, ih]

lemma containsChars_append_left (xs ys pat : List Char)
    (h : containsChars ys pat = true) : containsChars (xs ++ ys) pat = true := by
  induction xs with
  | nil => simpa using h
  | cons x xs ih => simp [containsChars, ih]

lemma containsChars_self_append (p t : List Char) : containsChars (p ++ t) p = true := by
  cases p with
  | nil => cases t <;> rfl
  | cons c cs =>
    simp only [containsChars, Bool.or_eq_true]
    exact Or.inl (startsWithChars_append_self (c :: cs) t)

lemma strContains_unknownFunctionString (n : String) :
    strContains (unknownFunctionString n) n = true := by
  unfold strContains unknownFunctionString
  rw [String.data_append, String.data_append, List.append_assoc]
  exact containsChars_append_left _ _ _ (containsChars_self_append _ _)

lemma llmErrorString_ne_unknownFunctionString (e n : String) :
    llmErrorString e ≠ unknownFunctionString n := by
  intro h
  have h2 := congrArg String.data h
  simp [llmErrorString, unknownFunctionString] at h2

/-! ### Claim theorems -/

/-- C1: whenever the first model response requests the supported tool
`web_search` with a string-valued `query` argument, `get_answer` performs
exactly one search call with that literal query string, then exactly one
second model request whose conversation is the user message, the assistant
tool-invocation message and the tool-result message, declaring no tools
(`tools = none`, `tool_choice = none`), and returns the second response's
text content.  The full event trace is computed exactly, and the per-kind
call counts are stated explicitly. -/
theorem c1_supported_tool_roundtrip (env : Env) (question : String)
    (resp : ChatResponse) (c : Choice) (crest : List Choice)
    (tc : ToolCall) (tcrest : List ToolCall) (kvs : List (String × Json)) (q : String)
    (fresp : ChatResponse) (fc : Choice) (fcrest : List Choice)
    (h1 : env.llm1 = .ok resp) (h2 : resp.choices = c :: crest)
    (h3 : c.message.tool_calls = tc :: tcrest)
    (h4 : tc.function.name = "web_search")
    (h5 : env.jsonLoads tc.function.arguments = .ok (Json.obj kvs))
    (h6 : kvs.lookup "query" = some (Json.str q))
    (h7 : env.llm2 = .ok fresp) (h8 : fresp.choices = fc :: fcrest) :
    get_answer env question =
      (fc.message.content,
       [firstRequestEvent question,
        Event.searchCall (Json.str q) 3,
        Event.llmRequest LLM_MODEL
          [Message.user question, Message.assistant c.message,
           Message.tool tc.id "web_search" (web_search_result env (Json.str q))]
          none none])
    ∧ (get_answer env question).2.countP isSearchEvent = 1
    ∧ (get_answer env question).2.countP isToollessRequest = 1 := by
  have hmain : get_answer env question =
      (fc.message.content,
       [firstRequestEvent question,
        Event.searchCall (Json.str q) 3,
        Event.llmRequest LLM_MODEL
          [Message.user question, Message.assistant c.message,
           Message.tool tc.id "web_search" (web_search_result env (Json.str q))]
          none none]) := by
    simp only [get_answer, get_answer_run, h1, h2, h3, h4, h5, h6, h7, h8, listIndex0,
      Json.pyGet, web_search, if_pos]
    simp
  refine ⟨hmain, ?_, ?_⟩ <;> rw [hmain] <;> rfl

/-- C1 witness: a concrete environment in which the model requests
`web_search` with query `"Gemini model news"`. -/
theorem c1_supported_tool_roundtrip_witness :
    (get_answer c1WitnessEnv "What is the latest news about Gemini model?").1 =
      "Here is the latest Gemini model news." := by
  have h := c1_supported_tool_roundtrip c1WitnessEnv
    "What is the latest news about Gemini model?"
    _ _ _ _ _ [("query", Json.str "Gemini model news")] "Gemini model news" _ _ _
    rfl rfl rfl rfl rfl rfl rfl rfl
  rw [h.1]

/-- C2: when the first model response carries no tool invocation request,
`get_answer` returns that response's text content unchanged, and the trace
is exactly one model request: no search call and no second request. -/
theorem c2_direct_answer (env : Env) (question : String)
    (resp : ChatResponse) (c : Choice) (crest : List Choice)
    (h1 : env.llm1 = .ok resp) (h2 : resp.choices = c :: crest)
    (h3 : c.message.tool_calls = []) :
    get_answer env question = (c.message.content, [firstRequestEvent question])
    ∧ (get_answer env question).2.countP isSearchEvent = 0
    ∧ (get_answer env question).2.countP isToollessRequest = 0 := by
  have hmain : get_answer env question = (c.message.content, [firstRequestEvent question]) := by
    simp only [get_answer, get_answer_run, h1, h2, h3, listIndex0]
  refine ⟨hmain, ?_, ?_⟩ <;> rw [hmain] <;> rfl

/-- C2 witness: the model answers `"Paris is the capital of France."`
directly. -/
theorem c2_direct_answer_witness :
    get_answer c2WitnessEnv "What is the capital of France?" =
      ("Paris is the capital of France.", [firstRequestEvent "What is the capital of France?"]) :=
  (c2_direct_answer c2WitnessEnv "What is the capital of France?" _ _ _ rfl rfl rfl).1

/-- C3 counterexample: the claim fails as stated, because `get_answer`
decodes the arguments with `json.loads` before validating the tool name.
Here the first tool invocation request names `"unsupported_tool"` but its
arguments `"{"` are not valid JSON, so the returned string is the
communication-failure string, which does not contain the tool name (and no
search call is performed). -/
theorem c3_unknown_tool_counterexample :
    c3CexEnv.llm1 = .ok ⟨[⟨⟨"", [⟨"call_1", ⟨"unsupported_tool", "\x7b"⟩⟩]⟩⟩]⟩
    ∧ (get_answer c3CexEnv "What is X?").1 =
        llmErrorString "Expecting value: line 1 column 1 (char 0)"
    ∧ strContains (get_answer c3CexEnv "What is X?").1 "unsupported_tool" = false := by
  refine ⟨rfl, rfl, ?_⟩
  decide

/-- C3 (amended): whenever the first tool invocation request names a tool
other than `web_search` AND its arguments decode as JSON, `get_answer`
returns the unknown-function string containing that tool name, with no
search call and no second model request (the trace is the first request
only). -/
theorem c3_unknown_tool (env : Env) (question : String)
    (resp : ChatResponse) (c : Choice) (crest : List Choice)
    (tc : ToolCall) (tcrest : List ToolCall) (fa : Json)
    (h1 : env.llm1 = .ok resp) (h2 : resp.choices = c :: crest)
    (h3 : c.message.tool_calls = tc :: tcrest)
    (h4 : tc.function.name ≠ "web_search")
    (h5 : env.jsonLoads tc.function.arguments = .ok fa) :
    get_answer env question =
      (unknownFunctionString tc.function.name, [firstRequestEvent question])
    ∧ strContains (get_answer env question).1 tc.function.name = true := by
  have hmain : get_answer env question =
      (unknownFunctionString tc.function.name, [firstRequestEvent question]) := by
    simp only [get_answer, get_answer_run, h1, h2, h3, h5, listIndex0, if_neg h4]
  refine ⟨hmain, ?_⟩
  rw [hmain]
  exact strContains_unknownFunctionString _

/-- C3 witness: an unknown tool `"unsupported_tool"` with well-formed JSON
arguments. -/
theorem c3_unknown_tool_witness :
    get_answer c3WitnessEnv "What is X?" =
      (unknownFunctionString "unsupported_tool", [firstRequestEvent "What is X?"]) :=
  (c3_unknown_tool c3WitnessEnv "What is X?" _ _ _ _ _ _ rfl rfl rfl
    (by decide) rfl).1

/-- C8: when the first completion call raises, `get_answer` returns the
communication-failure string describing that error, and the trace is the
first request only — no search call and no second model request happen. -/
theorem c8_first_call_failure (env : Env) (question : String) (e : String)
    (h : env.llm1 = .error e) :
    get_answer env question = (llmErrorString e, [firstRequestEvent question]) := by
  unfold get_answer get_answer_run
  rw [h]

/-- C8 witness: the endpoint raises `"Connection refused"`. -/
theorem c8_first_call_failure_witness :
    get_answer c8WitnessEnv "hello" =
      (llmErrorString "Connection refused", [firstRequestEvent "hello"]) :=
  c8_first_call_failure c8WitnessEnv "hello" "Connection refused" rfl

/-- C9: `json.loads` runs before the tool-name check, so whenever the first
tool call's arguments fail to decode — whatever the tool name — `get_answer`
returns the communication-failure string (and performs no search and no
second request: the trace is the first request only); that string is never
equal to an unknown-function string. -/
theorem c9_loads_before_name_check (env : Env) (question : String)
    (resp : ChatResponse) (c : Choice) (crest : List Choice)
    (tc : ToolCall) (tcrest : List ToolCall) (e : String)
    (h1 : env.llm1 = .ok resp) (h2 : resp.choices = c :: crest)
    (h3 : c.message.tool_calls = tc :: tcrest)
    (h4 : env.jsonLoads tc.function.arguments = .error e) :
    get_answer env question = (llmErrorString e, [firstRequestEvent question])
    ∧ ∀ n, (get_answer env question).1 ≠ unknownFunctionString n := by
  have hmain : get_answer env question = (llmErrorString e, [firstRequestEvent question]) := by
    simp only [get_answer, get_answer_run, h1, h2, h3, h4, listIndex0]
  refine ⟨hmain, fun n => ?_⟩
  rw [hmain]
  exact llmErrorString_ne_unknownFunctionString e n

/-- C9 witness: the supported tool name `"web_search"` with arguments
`"not json"` still yields the communication-failure string. -/
theorem c9_loads_before_name_check_witness :
    get_answer c9WitnessEnv "q" =
      (llmErrorString "Expecting value: line 1 column 1 (char 0)", [firstRequestEvent "q"])
    ∧ (get_answer c9WitnessEnv "q").1 ≠ unknownFunctionString "web_search" := by
  have h := c9_loads_before_name_check c9WitnessEnv "q" _ _ _ _ _
    "Expecting value: line 1 column 1 (char 0)" rfl rfl rfl rfl
  exact ⟨h.1, h.2 "web_search"⟩

/-- C10: when the supported tool's arguments decode to a JSON object with no
`"query"` key, no malformed-arguments error is reported: `dict.get` yields
Python `None` (`Json.null`), the search is invoked with that null query, the
flow continues to the second model request — even though the declared tool
schema lists `"query"` as required. -/
theorem c10_missing_query_key (env : Env) (question : String)
    (resp : ChatResponse) (c : Choice) (crest : List Choice)
    (tc : ToolCall) (tcrest : List ToolCall) (kvs : List (String × Json))
    (h1 : env.llm1 = .ok resp) (h2 : resp.choices = c :: crest)
    (h3 : c.message.tool_calls = tc :: tcrest)
    (h4 : tc.function.name = "web_search")
    (h5 : env.jsonLoads tc.function.arguments = .ok (Json.obj kvs))
    (h6 : kvs.lookup "query" = none) :
    (Json.obj kvs).pyGet "query" = .ok Json.null
    ∧ (get_answer env question).2 =
        [firstRequestEvent question,
         Event.searchCall Json.null 3,
         Event.llmRequest LLM_MODEL
           [Message.user question, Message.assistant c.message,
            Message.tool tc.id "web_search" (web_search_result env Json.null)]
           none none]
    ∧ "query" ∈ webSearchTool.function.parameters.required := by
  refine ⟨by simp [Json.pyGet, h6], ?_, by decide⟩
  rcases hl2 : env.llm2 with e | fresp
  · simp only [get_answer, get_answer_run, h1, h2, h3, h4, h5, h6, hl2, listIndex0,
      Json.pyGet, web_search, if_pos]
    simp
  · rcases hfc : fresp.choices with _ | ⟨fc, fcrest⟩ <;>
      · simp only [get_answer, get_answer_run, h1, h2, h3, h4, h5, h6, hl2, hfc, listIndex0,
          Json.pyGet, web_search, if_pos]
        simp

/-- C10 witness: arguments `{"q": "typo key"}` lack the `"query"` key; the
search event carries a null query. -/
theorem c10_missing_query_key_witness :
    (get_answer c10WitnessEnv "q").2 =
      [firstRequestEvent "q",
       Event.searchCall Json.null 3,
       Event.llmRequest LLM_MODEL
         [Message.user "q",
          Message.assistant ⟨"", [⟨"call_1", ⟨"web_search", "\x7b\"q\": \"typo key\"\x7d"⟩⟩]⟩,
          Message.tool "call_1" "web_search" (web_search_result c10WitnessEnv Json.null)]
         none none] :=
  (c10_missing_query_key c10WitnessEnv "q" _ _ _ _ _ [("q", Json.str "typo key")]
    rfl rfl rfl rfl rfl rfl).2.1

/-- Every trace of `get_answer` is either the first request alone, or the
first request followed by exactly one search call (whose query comes from
the FIRST tool call of the first response) and exactly one tool-less second
request. -/
lemma get_answer_trace_shape (env : Env) (question : String) :
    (get_answer env question).2 = [firstRequestEvent question] ∨
    ∃ resp c crest tc tcrest fa q,
      env.llm1 = .ok resp ∧ resp.choices = c :: crest ∧
      c.message.tool_calls = tc :: tcrest ∧ tc.function.name = "web_search" ∧
      env.jsonLoads tc.function.arguments = .ok fa ∧ fa.pyGet "query" = .ok q ∧
      (get_answer env question).2 =
        [firstRequestEvent question, Event.searchCall q 3,
         Event.llmRequest LLM_MODEL
           [Message.user question, Message.assistant c.message,
            Message.tool tc.id "web_search" (web_search_result env q)] none none] := by
  rcases hl1 : env.llm1 with e | resp
  · left; simp [get_answer, get_answer_run, hl1]
  · rcases hc : resp.choices with _ | ⟨c, crest⟩
    · left; simp [get_answer, get_answer_run, hl1, hc, listIndex0]
    · rcases htc : c.message.tool_calls with _ | ⟨tc, tcrest⟩
      · left; simp [get_answer, get_answer_run, hl1, hc, htc, listIndex0]
      · rcases hj : env.jsonLoads tc.function.arguments with e | fa
        · left; simp [get_answer, get_answer_run, hl1, hc, htc, hj, listIndex0]
        · by_cases hname : tc.function.name = "web_search"
          · rcases hq : fa.pyGet "query" with e | q
            · left
              simp [get_answer, get_answer_run, hl1, hc, htc, hj, hname, hq, listIndex0]
            · right
              refine ⟨resp, c, crest, tc, tcrest, fa, q, rfl, hc, htc, hname, hj, hq, ?_⟩
              rcases hl2 : env.llm2 with e | fresp
              · simp only [get_answer, get_answer_run, hl1, hc, htc, hname, hj, hq, hl2,
                  listIndex0, web_search, if_pos]
                simp
              · rcases hfc : fresp.choices with _ | ⟨fc, fcrest⟩ <;>
                  · simp only [get_answer, get_answer_run, hl1, hc, htc, hname, hj, hq, hl2,
                      hfc, listIndex0, web_search, if_pos]
                    simp
          · left
            simp only [get_answer, get_answer_run, hl1, hc, htc, hj, listIndex0, if_neg hname]

/-- C4: for every environment and question, `get_answer` performs at most
one search call and at most one tool-less (follow-up) model request, and any
search call that does occur carries `max_results = 3` and a query decoded
from the FIRST tool call of the first response — later tool calls are never
executed. -/
theorem c4_at_most_one_roundtrip (env : Env) (question : String) :
    (get_answer env question).2.countP isSearchEvent ≤ 1
    ∧ (get_answer env question).2.countP isToollessRequest ≤ 1
    ∧ ∀ q n, Event.searchCall q n ∈ (get_answer env question).2 →
        n = 3 ∧ ∃ resp c crest tc tcrest fa,
          env.llm1 = .ok resp ∧ resp.choices = c :: crest ∧
          c.message.tool_calls = tc :: tcrest ∧ tc.function.name = "web_search" ∧
          env.jsonLoads tc.function.arguments = .ok fa ∧ fa.pyGet "query" = .ok q := by
  rcases get_answer_trace_shape env question with h | ⟨resp, c, crest, tc, tcrest, fa, q0,
    hl1, hc, htc, hname, hj, hq, h⟩
  · refine ⟨?_, ?_, ?_⟩
    · rw [h]; exact Nat.zero_le _
    · rw [h]; exact Nat.zero_le _
    · intro q n hm
      rw [h] at hm
      simp [firstRequestEvent] at hm
  · refine ⟨?_, ?_, ?_⟩
    · rw [h]; exact Nat.le_refl _
    · rw [h]; exact Nat.le_refl _
    · intro q n hm
      rw [h] at hm
      simp [firstRequestEvent, List.mem_cons] at hm
      obtain ⟨hqq, hnn⟩ := hm
      subst hqq hnn
      exact ⟨rfl, resp, c, crest, tc, tcrest, fa, hl1, hc, htc, hname, hj, hq⟩

/-- C4 witness: in a concrete run where the first response carries TWO tool
calls, the single search call performed uses the first call's query. -/
theorem c4_at_most_one_roundtrip_witness :
    (get_answer c4WitnessEnv "q").2.countP isSearchEvent ≤ 1
    ∧ ((3 : Nat) = 3 ∧ ∃ resp c crest tc tcrest fa,
        c4WitnessEnv.llm1 = .ok resp ∧ resp.choices = c :: crest ∧
        c.message.tool_calls = tc :: tcrest ∧ tc.function.name = "web_search" ∧
        c4WitnessEnv.jsonLoads tc.function.arguments = .ok fa ∧
        fa.pyGet "query" = .ok (Json.str "first query")) := by
  have h := c4_at_most_one_roundtrip c4WitnessEnv "q"
  refine ⟨h.1, h.2.2 (Json.str "first query") 3 ?_⟩
  rw [show (get_answer c4WitnessEnv "q").2 =
    [firstRequestEvent "q", Event.searchCall (Json.str "first query") 3,
     Event.llmRequest LLM_MODEL
       [Message.user "q",
        Message.assistant ⟨"",
          [⟨"call_1", ⟨"web_search", "\x7b\"query\": \"first query\"\x7d"⟩⟩,
           ⟨"call_2", ⟨"web_search", "\x7b\"query\": \"second query\"\x7d"⟩⟩]⟩,
        Message.tool "call_1" "web_search" (web_search_result c4WitnessEnv (Json.str "first query"))]
       none none] from rfl]
  exact List.Mem.tail _ (List.Mem.head _)

/-- C5: whenever the search provider returns zero results, `web_search`
returns exactly the string `"No results found."`. -/
theorem c5_no_results (env : Env) (q : Json) (h : env.ddgsText q = .ok []) :
    (web_search env q).1 = "No results found." := by
  simp [web_search, web_search_result, h]

/-- C5 witness: a provider returning the empty result list. -/
theorem c5_no_results_witness :
    (web_search c5WitnessEnv (Json.str "anything")).1 = "No results found." :=
  c5_no_results c5WitnessEnv (Json.str "anything") rfl

/-- C6 counterexample: the claim fails as stated.  The provider returns
exactly one result, but its snippet contains an embedded
`"\nTitle: "`, so the returned string has two `"Title:"`-prefixed lines
instead of one. -/
theorem c6_title_lines_counterexample :
    c6CexEnv.ddgsText (Json.str "q") = .ok [⟨"T", "B\nTitle: sneaky"⟩]
    ∧ (web_search c6CexEnv (Json.str "q")).1 = "Title: T\nSnippet: B\nTitle: sneaky"
    ∧ titleLineCount (web_search c6CexEnv (Json.str "q")).1 = 2 := by
  refine ⟨rfl, rfl, ?_⟩
  decide

/-- C6 (amended): whenever the provider returns `n ≥ 1` results for a query,
`web_search` returns the newline-join of the `"Title: <title>\nSnippet:
<body>"` blocks of the first `min n 3` results; provided no used result's
title or snippet contains a newline character, that string contains exactly
`min n 3` lines prefixed with `"Title: "`. -/
theorem c6_title_lines (env : Env) (q : Json) (rs : List SearchResult)
    (hds : env.ddgsText q = .ok rs) (hne : rs ≠ []) :
    (web_search env q).1 = joinNl ((rs.take 3).map formatResult)
    ∧ ((∀ r ∈ rs.take 3, '\n' ∉ r.title.data ∧ '\n' ∉ r.body.data) →
        titleLineCount (web_search env q).1 = min rs.length 3) := by
  have htake : rs.take 3 ≠ [] := by
    rcases rs with _ | ⟨a, b⟩
    · exact absurd rfl hne
    · exact List.cons_ne_nil _ _
  have h1 : (web_search env q).1 = joinNl ((rs.take 3).map formatResult) := by
    simp only [web_search, web_search_result, hds]
    rw [if_neg (by simpa using htake)]
  refine ⟨h1, fun hnl => ?_⟩
  rw [h1, titleCount_join _ htake hnl, List.length_take]
  exact Nat.min_comm 3 rs.length

/-- C6 witness: four newline-free results; the output is the join of the
first three blocks and has exactly three title lines. -/
theorem c6_title_lines_witness :
    (web_search c6WitnessEnv (Json.str "news")).1 =
      joinNl ((c6WitnessResults.take 3).map formatResult)
    ∧ titleLineCount (web_search c6WitnessEnv (Json.str "news")).1 =
        min c6WitnessResults.length 3 := by
  have h := c6_title_lines c6WitnessEnv (Json.str "news") c6WitnessResults rfl (by decide)
  exact ⟨h.1, h.2 (by decide)⟩

/-- C7: no failure of the search provider or of the model endpoint escapes
as an exception: `web_search` always returns one of its three contract
strings (the empty-result literal, a formatted digest, or the search-error
string), and `get_answer` always returns one of its documented final
strings (a communication-failure string, an unknown-function string, or a
model message's text content), for EVERY oracle behavior including raised
exceptions. -/
theorem c7_failures_become_strings (env : Env) (question : String) (q : Json) :
    ((web_search env q).1 = "No results found."
      ∨ (∃ rs : List SearchResult, (web_search env q).1 = joinNl (rs.map formatResult))
      ∨ (∃ e, (web_search env q).1 = "An error occurred during search: " ++ e))
    ∧ ((∃ e, (get_answer env question).1 = llmErrorString e)
      ∨ (∃ n, (get_answer env question).1 = unknownFunctionString n)
      ∨ (∃ m : ChatMessage, (get_answer env question).1 = m.content)) := by
  constructor
  · rcases hd : env.ddgsText q with e | stream
    · exact Or.inr (Or.inr ⟨e, by simp [web_search, web_search_result, hd]⟩)
    · by_cases hemp : stream.take 3 = []
      · left
        simp [web_search, web_search_result, hd, hemp]
      · refine Or.inr (Or.inl ⟨stream.take 3, ?_⟩)
        simp only [web_search, web_search_result, hd]
        rw [if_neg (by simpa using hemp)]
  · rcases hl1 : env.llm1 with e | resp
    · exact Or.inl ⟨e, by simp [get_answer, get_answer_run, hl1]⟩
    · rcases hc : resp.choices with _ | ⟨c, crest⟩
      · exact Or.inl ⟨"list index out of range",
          by simp [get_answer, get_answer_run, hl1, hc, listIndex0]⟩
      · rcases htc : c.message.tool_calls with _ | ⟨tc, tcrest⟩
        · exact Or.inr (Or.inr ⟨c.message,
            by simp [get_answer, get_answer_run, hl1, hc, htc, listIndex0]⟩)
        · rcases hj : env.jsonLoads tc.function.arguments with e | fa
          · exact Or.inl ⟨e,
              by simp [get_answer, get_answer_run, hl1, hc, htc, hj, listIndex0]⟩
          · by_cases hname : tc.function.name = "web_search"
            · rcases hq : fa.pyGet "query" with e | qa
              · exact Or.inl ⟨e, by
                  simp [get_answer, get_answer_run, hl1, hc, htc, hj, hname, hq, listIndex0]⟩
              · rcases hl2 : env.llm2 with e | fresp
                · refine Or.inl ⟨e, ?_⟩
                  simp only [get_answer, get_answer_run, hl1, hc, htc, hj, hname, hq, hl2,
                    listIndex0, web_search, if_pos]
                · rcases hfc : fresp.choices with _ | ⟨fc, fcrest⟩
                  · refine Or.inl ⟨"list index out of range", ?_⟩
                    simp only [get_answer, get_answer_run, hl1, hc, htc, hj, hname, hq, hl2,
                      hfc, listIndex0, web_search, if_pos]
                  · refine Or.inr (Or.inr ⟨fc.message, ?_⟩)
                    simp only [get_answer, get_answer_run, hl1, hc, htc, hj, hname, hq, hl2,
                      hfc, listIndex0, web_search, if_pos]
            · exact Or.inr (Or.inl ⟨tc.function.name, by
                simp only [get_answer, get_answer_run, hl1, hc, htc, hj, listIndex0,
                  if_neg hname]⟩)
